import Mathlib

/-!
Package dulumao/logger: a shallow embedding of the levelled logging façade

The Go package `logger` (files `simple.go`, `console.go`) is embedded as pure
functions over explicit state:

* a `SimpleLogHandler` is the pair of its console flag and its `*log.Logger`
  (which is `nil` in the zero value);
* every `Write` call issued to an `io.Writer` is recorded, oldest first, in a
  list of `(sink, bytes)` events;
* a statement either completes, panics or exits the process (`Outcome`);
* the package variables of `console.go` and the objects allocated by it live in
  a `Pkg` state.

Library code the package calls but does not contain (`fmt`, `merry`, `spew`,
`prettyjson`) is a parameter (`Lib`); the small part of the Go standard `log`
package that decides the shape of a written line is modelled directly.
-/

namespace Dulumao

/-! ## Values, errors and library parameters -/

/-- Go values handed over as `interface{}` operands. -/
inductive GoValue
  | str (s : String)
  | int (n : Int)
  | bool (b : Bool)
  | func (name : String)
  | null
  deriving DecidableEq, Repr

/-- Keys under which `merry` attaches values to an error. -/
inductive MerryKey
  | stack
  | message
  deriving DecidableEq, Repr

/-- Non-nil Go `error` values: a plain error carrying its text, or a `merry`
node that attaches one key/value pair to the error it wraps. -/
inductive GoError
  | base (msg : String)
  | withValue (inner : GoError) (key : MerryKey) (value : String)
  deriving DecidableEq, Repr

/-- The attached message of a `merry` chain, outermost first (`""` when none). -/
def GoError.attachedMessage : GoError → String
  | .base _ => ""
  | .withValue _ .message v => v
  | .withValue e .stack _ => e.attachedMessage

/-- The error at the bottom of a `merry` chain (`merry.Unwrap`). -/
def GoError.Unwrap : GoError → GoError
  | .base m => .base m
  | .withValue e _ _ => e.Unwrap

/-- The text of `err.Error()`: the attached message when there is a non-empty
one, otherwise the text of the wrapped error. -/
def GoError.Error : GoError → String
  | .base m => m
  | .withValue e k v =>
    if (GoError.withValue e k v).attachedMessage = "" then e.Error
    else (GoError.withValue e k v).attachedMessage

/-- Runtime panics the embedded code can raise. -/
inductive Panic
  | nilDereference
  deriving DecidableEq, Repr

/-- How a statement ends: it completes, panics, or exits the process. -/
inductive Outcome
  | done
  | panic (p : Panic)
  | exit (code : Int)
  deriving DecidableEq, Repr

/-- Library functions the package calls and does not define. -/
structure Lib where
  /-- Models `fmt.Sprintf(format, args...)`. -/
  sprintf : String → List GoValue → String
  /-- Models `fmt.Sprint(args...)`. -/
  sprint : List GoValue → String
  /-- Models `merry.Details(err)` on a non-nil error. -/
  details : GoError → String
  /-- Models `spew.Sdump(vars...)`. -/
  sdump : List GoValue → String
  /-- Models `formatter.Marshal(v)`: the JSON text, or the text of the error. -/
  marshal : GoValue → Except String String
  /-- The stack `merry` captures at a call site. -/
  stack : String

/-! ## The Go standard `log` package, as far as the handler uses it -/

/-- An `io.Writer`, by identity. -/
abbrev Sink := Nat

/-- The process standard output, `os.Stdout`. -/
abbrev Stdout : Sink := 1

/-- The process standard error, `os.Stderr`. -/
abbrev Stderr : Sink := 2

/-- Every `Write` call issued so far, oldest first. -/
abbrev Writes := List (Sink × String)

/-- The wall-clock reading `time.Now()` that a log call takes. -/
structure GoTime where
  year : Nat
  month : Nat
  day : Nat
  hour : Nat
  min : Nat
  sec : Nat
  deriving DecidableEq, Repr

abbrev Ldate : Nat := 1
abbrev Ltime : Nat := 2
abbrev Lmsgprefix : Nat := 64
abbrev LstdFlags : Nat := 3

/-- The decimal digit `byte(48 + d)`. -/
def digit (d : Nat) : Char := Char.ofNat (48 + d % 10)

/-- The loop of `log.itoa`, filling a 20-byte buffer from its end: `fuel` is the
room left in the buffer. -/
def itoaLoop : Nat → Nat → Nat → List Char → List Char
  | 0, i, _, acc => digit i :: acc
  | fuel + 1, i, wid, acc =>
    if i ≥ 10 ∨ wid > 1 then itoaLoop fuel (i / 10) (wid - 1) (digit i :: acc)
    else digit i :: acc

/-- Models `log.itoa(buf, i, wid)`: `i` in decimal, zero-padded to `wid`. -/
def itoa (i wid : Nat) : String := ⟨itoaLoop 19 i wid []⟩

/-- Models `log.formatHeader` for the date, time and message-prefix flags (the
file, microsecond and UTC flags are never set by this package). -/
def formatHeader (pfx : String) (flag : Nat) (t : GoTime) : String :=
  (if flag &&& Lmsgprefix = 0 then pfx else "") ++
  (if flag &&& Ldate ≠ 0 then
    itoa t.year 4 ++ "/" ++ itoa t.month 2 ++ "/" ++ itoa t.day 2 ++ " " else "") ++
  (if flag &&& Ltime ≠ 0 then
    itoa t.hour 2 ++ ":" ++ itoa t.min 2 ++ ":" ++ itoa t.sec 2 ++ " " else "") ++
  (if flag &&& Lmsgprefix ≠ 0 then pfx else "")

/-- A `log.Logger`: destination, line prefix and flags. -/
structure GoLogger where
  out : Sink
  pfx : String
  flag : Nat
  deriving DecidableEq, Repr

/-- Models `log.New(out, prefix, flag)`. -/
def logNew (out : Sink) (pfx : String) (flag : Nat) : GoLogger := ⟨out, pfx, flag⟩

/-- Models `(*log.Logger).SetOutput`. -/
def GoLogger.SetOutput (l : GoLogger) (out : Sink) : GoLogger := { l with out := out }

/-- Models `(*log.Logger).Output`: header, text, a newline unless the text ends
in one, all in a single `Write` to the logger's destination. -/
def GoLogger.Output (l : GoLogger) (now : GoTime) (s : String) (w : Writes) : Writes :=
  let buf := formatHeader l.pfx l.flag now ++ s
  let buf := if s.data.getLast? = some '\n' then buf else buf ++ "\n"
  w ++ [(l.out, buf)]

/-- Models `(*log.Logger).Print` applied to one string operand, whose
`fmt.Sprint` is the string itself. -/
def GoLogger.Print (l : GoLogger) (now : GoTime) (text : String) (w : Writes) : Writes :=
  l.Output now text w

/-! ## simple.go: levels and the handler -/

/-- Source: `type LogLevel int`. -/
abbrev LogLevel := Int

abbrev ERROR : LogLevel := 0
abbrev WARN : LogLevel := 1
abbrev INFO : LogLevel := 2
abbrev DEBUG : LogLevel := 3
abbrev PANIC : LogLevel := 4
abbrev FATAL : LogLevel := 5
abbrev EMER : LogLevel := 6
abbrev TRACE : LogLevel := 7

/-- Source: `type SimpleLogHandler struct`; the mutex is left out, since in a
sequential run every method releases it before returning. -/
structure SimpleLogHandler where
  isConsole : Bool
  logger : Option GoLogger
  deriving DecidableEq, Repr

/-- Source: `new(SimpleLogHandler)`, the zero value. -/
def SimpleLogHandler.zero : SimpleLogHandler := ⟨false, none⟩

/-- Source: `func Simple() *SimpleLogHandler`. -/
def Simple : SimpleLogHandler :=
  { isConsole := false, logger := some (logNew Stderr "" LstdFlags) }

namespace SimpleLogHandler

/-- Source: `SetConsole`. -/
def SetConsole (h : SimpleLogHandler) (isConsole : Bool) : SimpleLogHandler :=
  { h with isConsole := isConsole }

/-- Source: `SetOutput`; the call on a nil `*log.Logger` panics. -/
def SetOutput (h : SimpleLogHandler) (out : Sink) : Except Panic SimpleLogHandler :=
  match h.logger with
  | none => .error .nilDereference
  | some l => .ok { h with logger := some (l.SetOutput out) }

/-- Source: `StringifyLog`. -/
def StringifyLog (_h : SimpleLogHandler) (lib : Lib) (_level : LogLevel)
    (err : Option GoError) (msg : String) (args : List GoValue) : String :=
  let msg := if args.length > 0 then lib.sprintf msg args else msg
  let msg := match err with
    | some e => msg ++ (":\n" ++ lib.details e)
    | none => msg
  msg

/-- Source: `AddLevelPrevix`. -/
def AddLevelPrevix (_h : SimpleLogHandler) (level : LogLevel) (text : String) : String :=
  if level = ERROR then "[ERROR] " ++ text
  else if level = WARN then "[WARN] " ++ text
  else if level = INFO then "[INFO] " ++ text
  else if level = DEBUG then "[DEBUG] " ++ text
  else if level = PANIC then "[PANIC] " ++ text
  else if level = FATAL then "[FATAL] " ++ text
  else if level = EMER then "[EMER] " ++ text
  else if level = TRACE then "[TRACE] " ++ text
  else text

/-- Source: `AddLevelColor`. -/
def AddLevelColor (_h : SimpleLogHandler) (level : LogLevel) (text : String) : String :=
  if level = DEBUG then "\x1b[90m" ++ text ++ "\x1b[0m"
  else if level = WARN then "\x1b[93m" ++ text ++ "\x1b[0m"
  else if level = INFO then "\x1b[1;34m" ++ text ++ "\x1b[0m"
  else if level = ERROR then "\x1b[91m" ++ text ++ "\x1b[0m"
  else if level = EMER then "\x1b[1;36m" ++ text ++ "\x1b[0m"
  else if level = FATAL then "\x1b[1;35m" ++ text ++ "\x1b[0m"
  else if level = PANIC then "\x1b[1;41m" ++ text ++ "\x1b[0m"
  else if level = TRACE then "\x1b[1;32m" ++ text ++ "\x1b[0m"
  else text

/-- Source: `StringifyMessage`. -/
def StringifyMessage (_h : SimpleLogHandler) (isIncoming : Bool) (msg : String) : String :=
  if isIncoming then ">>> " ++ msg else "<<< " ++ msg

/-- The text that `Log` hands to its logger (the local `text` at the call
`h.logger.Print(text)`). -/
def logText (h : SimpleLogHandler) (lib : Lib) (level : LogLevel)
    (err : Option GoError) (msg : String) (args : List GoValue) : String :=
  let text := h.StringifyLog lib level err msg args
  let text := h.AddLevelPrevix level text
  if h.isConsole then h.AddLevelColor level text else text

/-- Source: `Log`; `h.logger.Print` on a nil logger panics. -/
def Log (h : SimpleLogHandler) (lib : Lib) (now : GoTime) (level : LogLevel)
    (err : Option GoError) (msg : String) (args : List GoValue) (w : Writes) :
    Outcome × Writes :=
  let text := h.logText lib level err msg args
  match h.logger with
  | none => (.panic .nilDereference, w)
  | some l => (.done, l.Print now text w)

/-- Source: `Print`. -/
def Print (h : SimpleLogHandler) (lib : Lib) (now : GoTime) (level : LogLevel)
    (msg : List GoValue) (w : Writes) : Outcome × Writes :=
  let text := h.AddLevelPrevix level (lib.sprint msg)
  let text := if h.isConsole then h.AddLevelColor level text else text
  match h.logger with
  | none => (.panic .nilDereference, w)
  | some l => (.done, l.Print now text w)

/-- Source: `Message`. -/
def Message (h : SimpleLogHandler) (lib : Lib) (now : GoTime) (isIncoming : Bool)
    (msg : String) (w : Writes) : Outcome × Writes :=
  h.Log lib now DEBUG none (h.StringifyMessage isIncoming msg) [] w

end SimpleLogHandler

/-! ## simple.go: the façade -/

/-- The handler objects and `Logger` objects allocated so far (an address is an
index), the package variables `single` and `once` of `console.go`, and the
writes issued so far. -/
structure Pkg where
  handlers : List SimpleLogHandler
  loggers : List (Option Nat)
  single : Option Nat
  once : Bool
  writes : Writes
  deriving DecidableEq, Repr

/-- The state of a process that has not allocated or written anything. -/
def Pkg.init : Pkg := ⟨[], [], none, false, []⟩

/-- A statement: it runs on a state and ends in some way. -/
abbrev Stmt := Pkg → Outcome × Pkg

/-- Sequencing `first; next`: `next` runs only if `first` completes. -/
def andThen (first next : Stmt) : Stmt := fun s =>
  match first s with
  | (.done, s1) => next s1
  | r => r

/-- Models `os.Exit(code)`. -/
def osExit (code : Int) : Stmt := fun s => (.exit code, s)

/-- Source: `new(SimpleLogHandler)`: allocates a zero-value handler. -/
def newSimpleLogHandler (s : Pkg) : Nat × Pkg :=
  (s.handlers.length, { s with handlers := s.handlers ++ [SimpleLogHandler.zero] })

/-- Source: `Simple()`, allocating the handler it returns. -/
def allocSimple (s : Pkg) : Nat × Pkg :=
  (s.handlers.length, { s with handlers := s.handlers ++ [Simple] })

/-- Source: `type Logger struct { Hnd LogHandler }`: the handler is held by
reference, `none` being the nil interface. -/
structure Logger where
  Hnd : Option Nat
  deriving DecidableEq, Repr

namespace Logger

/-- The handler object a logger refers to, if any. -/
def handler (l : Logger) (s : Pkg) : Option SimpleLogHandler :=
  match l.Hnd with
  | none => none
  | some a => s.handlers[a]?

/-- The call `l.Hnd.Log(level, err, msg, args...)`. -/
def hndLog (l : Logger) (lib : Lib) (now : GoTime) (level : LogLevel)
    (err : Option GoError) (msg : String) (args : List GoValue) : Stmt := fun s =>
  match l.handler s with
  | none => (.panic .nilDereference, s)
  | some h =>
    let r := h.Log lib now level err msg args s.writes
    (r.1, { s with writes := r.2 })

/-- The call `l.Hnd.Print(level, args...)`. -/
def hndPrint (l : Logger) (lib : Lib) (now : GoTime) (level : LogLevel)
    (args : List GoValue) : Stmt := fun s =>
  match l.handler s with
  | none => (.panic .nilDereference, s)
  | some h =>
    let r := h.Print lib now level args s.writes
    (r.1, { s with writes := r.2 })

/-- The call `l.Hnd.Message(isIncoming, msg)`. -/
def hndMessage (l : Logger) (lib : Lib) (now : GoTime) (isIncoming : Bool)
    (msg : String) : Stmt := fun s =>
  match l.handler s with
  | none => (.panic .nilDereference, s)
  | some h =>
    let r := h.Message lib now isIncoming msg s.writes
    (r.1, { s with writes := r.2 })

/-- The call `l.Hnd.SetConsole(isConsole)`. -/
def hndSetConsole (l : Logger) (isConsole : Bool) : Stmt := fun s =>
  match l.Hnd with
  | none => (.panic .nilDereference, s)
  | some a =>
    match s.handlers[a]? with
    | none => (.panic .nilDereference, s)
    | some h => (.done, { s with handlers := s.handlers.set a (h.SetConsole isConsole) })

/-- The call `l.Hnd.SetOutput(out)`. -/
def hndSetOutput (l : Logger) (out : Sink) : Stmt := fun s =>
  match l.Hnd with
  | none => (.panic .nilDereference, s)
  | some a =>
    match s.handlers[a]? with
    | none => (.panic .nilDereference, s)
    | some h =>
      match h.SetOutput out with
      | .error p => (.panic p, s)
      | .ok h1 => (.done, { s with handlers := s.handlers.set a h1 })

/-- Source: `Logger.Error`. -/
def Error (l : Logger) (lib : Lib) (now : GoTime) (err : Option GoError) (msg : String)
    (args : List GoValue) : Stmt :=
  l.hndLog lib now ERROR err msg args

/-- Source: `Logger.Errorf`. -/
def Errorf (l : Logger) (lib : Lib) (now : GoTime) (msg : String) (args : List GoValue) : Stmt :=
  l.hndLog lib now ERROR none msg args

/-- Source: `Logger.Warn`. -/
def Warn (l : Logger) (lib : Lib) (now : GoTime) (msg : String) (args : List GoValue) : Stmt :=
  l.hndLog lib now WARN none msg args

/-- Source: `Logger.Info`. -/
def Info (l : Logger) (lib : Lib) (now : GoTime) (msg : String) (args : List GoValue) : Stmt :=
  l.hndLog lib now INFO none msg args

/-- Source: `Logger.Debug`. -/
def Debug (l : Logger) (lib : Lib) (now : GoTime) (msg : String) (args : List GoValue) : Stmt :=
  l.hndLog lib now DEBUG none msg args

/-- Source: `Logger.Panic`; `err.Error()` on a nil error panics. -/
def Panic (l : Logger) (lib : Lib) (now : GoTime) (err : Option GoError) : Stmt :=
  match err with
  | none => fun s => (.panic .nilDereference, s)
  | some e => l.hndLog lib now PANIC none e.Error []

/-- Source: `Logger.Paninf`. -/
def Paninf (l : Logger) (lib : Lib) (now : GoTime) (msg : String) (args : List GoValue) : Stmt :=
  l.hndLog lib now PANIC none msg args

/-- Source: `Logger.Fatal`; `err.Error()` on a nil error panics. -/
def Fatal (l : Logger) (lib : Lib) (now : GoTime) (err : Option GoError) : Stmt :=
  match err with
  | none => fun s => (.panic .nilDereference, s)
  | some e => andThen (l.hndLog lib now FATAL none e.Error []) (osExit 1)

/-- Source: `Logger.Emer`. -/
def Emer (l : Logger) (lib : Lib) (now : GoTime) (msg : String) (args : List GoValue) : Stmt :=
  l.hndLog lib now EMER none msg args

/-- Source: `Logger.Trace`. -/
def Trace (l : Logger) (lib : Lib) (now : GoTime) (msg : String) (args : List GoValue) : Stmt :=
  l.hndLog lib now TRACE none msg args

/-- Source: `Logger.Printf`. -/
def Printf (l : Logger) (lib : Lib) (now : GoTime) (msg : String) (args : List GoValue) : Stmt :=
  l.hndLog lib now DEBUG none msg args

/-- Source: `Logger.Print`. -/
def Print (l : Logger) (lib : Lib) (now : GoTime) (args : List GoValue) : Stmt :=
  l.hndPrint lib now DEBUG args

/-- Source: `Logger.Message`. -/
def Message (l : Logger) (lib : Lib) (now : GoTime) (isIncoming : Bool) (message : String) :
    Stmt :=
  l.hndMessage lib now isIncoming message

end Logger

/-! ## console.go: the singleton -/

/-- The function passed to `once.Do` in `Console`. -/
def consoleInit (s : Pkg) : Pkg :=
  let (hnd, s) := allocSimple s
  let logger := s.loggers.length
  let s := { s with loggers := s.loggers ++ [some hnd] }
  let s := ((Logger.mk (some hnd)).hndSetConsole true s).2
  { s with single := some logger }

/-- Source: `func Console() *Logger`; `once.Do(f)` runs `f` unless the once is
already done, and is done afterwards. -/
def Console (s : Pkg) : Option Nat × Pkg :=
  let s := if s.once then s else { consoleInit s with once := true }
  (s.single, s)

/-- Runs `Console()` `n` times in a row, collecting what each call returns. -/
def consoleCalls : Nat → Pkg → List (Option Nat) × Pkg
  | 0, s => ([], s)
  | n + 1, s =>
    let r := Console s
    let rest := consoleCalls n r.2
    (r.1 :: rest.1, rest.2)

/-! ## simple.go: error wrapping and dumps -/

/-- What `runtime.Caller(1)` and `runtime.FuncForPC(pc).Name()` report. -/
structure Caller where
  fn : String
  file : String
  line : Nat
  deriving DecidableEq, Repr

/-- Models `merry.Here(err)`: nil for a nil error, otherwise the error with a
stack attached. -/
def merryHere (lib : Lib) : Option GoError → Option GoError
  | none => none
  | some e => some (.withValue e .stack lib.stack)

/-- Models the method call `recv.WithMessagef(...)` on a `merry.Error`
interface value, `text` being the formatted message: the call on the nil
interface panics. -/
def merryWithMessagef (recv : Option GoError) (text : String) : Except Panic (Option GoError) :=
  match recv with
  | none => .error .nilDereference
  | some e => .ok (some (.withValue e .message text))

/-- The annotation `"\n\nerror in function[%s] file[%s] line[%d]"`, formatted. -/
def wrapText (c : Caller) : String :=
  "\n\nerror in function[" ++ c.fn ++ "] file[" ++ c.file ++ "] line[" ++ toString c.line ++ "]"

/-- Eighty dashes. -/
def dashes : String :=
  "--------------------------------------------------------------------------------"

/-- The annotation of `WrapDebug`, formatted; `dump` is `spew.Sdump(vars...)`. -/
def wrapDebugText (c : Caller) (dump : String) : String :=
  "\nerror in function[" ++ c.fn ++ "] file[" ++ c.file ++ "] line[" ++ toString c.line ++
    "]\n↓↓↓ Debug variables ↓↓↓\n" ++ dashes ++ "\n" ++ dump ++ dashes ++ "\ncause of error"

/-- Source: `func Wrap(err error) error`. -/
def Wrap (lib : Lib) (c : Caller) (err : Option GoError) : Except Panic (Option GoError) :=
  merryWithMessagef (merryHere lib err) (wrapText c)

/-- Source: `func WrapDebug(err error, vars ...interface{}) error`. -/
def WrapDebug (lib : Lib) (c : Caller) (err : Option GoError) (vars : List GoValue) :
    Except Panic (Option GoError) :=
  merryWithMessagef (merryHere lib err) (wrapDebugText c (lib.sdump vars))

/-- Source: the closure returned by `WrapReturn(err)`, called. -/
def WrapReturn (lib : Lib) (c : Caller) (err : Option GoError) : Except Panic (Option GoError) :=
  match err with
  | some e => merryWithMessagef (merryHere lib (some e)) (wrapText c)
  | none => .ok none

/-- The banner `JSStdout` prints first. -/
def jsBanner (c : Caller) : String :=
  "\nfunction[" ++ c.fn ++ "] file[" ++ c.file ++ "] line[" ++ toString c.line ++
    "]\n↓↓↓ Debug variables ↓↓↓\n" ++ dashes ++ "\n"

/-- Models `fmt.Fprintln(os.Stdout, operands...)` on string operands: they are
joined by single spaces and a newline is added, in one write. -/
def fprintlnStdout (operands : List String) (w : Writes) : Writes :=
  w ++ [(Stdout, " ".intercalate operands ++ "\n")]

/-- The body of the loop of `JSStdout`, for one value. -/
def jsEntry (lib : Lib) (w : Writes) (v : GoValue) : Writes :=
  match lib.marshal v with
  | .ok s => fprintlnStdout [s] w
  | .error e => fprintlnStdout ["%s", e] w

/-- Source: `func JSStdout(i ...interface{})`. -/
def JSStdout (lib : Lib) (c : Caller) (i : List GoValue) (w : Writes) : Writes :=
  let w := w ++ [(Stdout, jsBanner c)]
  let w := i.foldl (jsEntry lib) w
  fprintlnStdout [dashes] w

/-! ## A concrete library instance, for evaluating the definitions on examples -/

/-- A rendering of one value, standing in for the default format of `fmt`. -/
def GoValue.render : GoValue → String
  | .str s => s
  | .int n => toString n
  | .bool b => toString b
  | .func name => "func " ++ name
  | .null => "<nil>"

/-- One admissible choice of the library parameters; its `sprintf` is a stand-in
that appends the rendered operands to the format. -/
def sampleLib : Lib where
  sprintf := fun f args => f ++ String.join (args.map GoValue.render)
  sprint := fun args => String.join (args.map GoValue.render)
  details := fun e => e.Error ++ "\n\nstack"
  sdump := fun vars => String.join (vars.map fun v => "(" ++ v.render ++ ")\n")
  marshal := fun v =>
    match v with
    | .func _ => .error "json: unsupported type: func()"
    | .str s => .ok ("\"" ++ s ++ "\"")
    | v => .ok v.render
  stack := "stack"

/-- A clock reading used in examples. -/
def sampleTime : GoTime := ⟨2024, 3, 9, 7, 5, 1⟩

/-! ## Tables used to state the properties -/

/-- The eight levels, each with the tag that `AddLevelPrevix` puts in front and
the escape sequence that `AddLevelColor` puts in front. -/
def levelTable : List (LogLevel × String × String) :=
  [(ERROR, "[ERROR] ", "\x1b[91m"), (WARN, "[WARN] ", "\x1b[93m"),
   (INFO, "[INFO] ", "\x1b[1;34m"), (DEBUG, "[DEBUG] ", "\x1b[90m"),
   (PANIC, "[PANIC] ", "\x1b[1;41m"), (FATAL, "[FATAL] ", "\x1b[1;35m"),
   (EMER, "[EMER] ", "\x1b[1;36m"), (TRACE, "[TRACE] ", "\x1b[1;32m")]

/-- The state in which `TestSimple` starts logging: one zero-value handler has
been allocated and `SetConsole(true)` has been called on it. -/
def testSimpleState : Pkg :=
  ((Logger.mk (some (newSimpleLogHandler Pkg.init).1)).hndSetConsole true
    (newSimpleLogHandler Pkg.init).2).2

/-- The logger `TestSimple` builds: `&Logger{Hnd: new(SimpleLogHandler)}`. -/
def testSimpleLogger : Logger := ⟨some (newSimpleLogHandler Pkg.init).1⟩

/-- The line `JSStdout` prints for one value. -/
def jsLine (lib : Lib) (v : GoValue) : String :=
  match lib.marshal v with
  | .ok s => s ++ "\n"
  | .error e => "%s " ++ e ++ "\n"

/-! ## Lemmas on the written line -/

theorem digit_plain (d : Nat) : digit d ≠ '\x1b' ∧ digit d ≠ '\n' := by
  have h : d % 10 < 10 := Nat.mod_lt _ (by decide)
  unfold digit
  generalize d % 10 = r at h
  interval_cases r <;> decide

theorem itoaLoop_plain (fuel : Nat) : ∀ (i wid : Nat) (acc : List Char),
    (∀ c ∈ acc, c ≠ '\x1b' ∧ c ≠ '\n') →
    ∀ c ∈ itoaLoop fuel i wid acc, c ≠ '\x1b' ∧ c ≠ '\n' := by
  induction fuel with
  | zero =>
    intro i wid acc hacc c hc
    simp only [itoaLoop, List.mem_cons] at hc
    rcases hc with rfl | hc
    · exact digit_plain i
    · exact hacc c hc
  | succ f ih =>
    intro i wid acc hacc c hc
    have hcons : ∀ c ∈ digit i :: acc, c ≠ '\x1b' ∧ c ≠ '\n' := by
      intro c hc
      rcases List.mem_cons.mp hc with rfl | hc
      · exact digit_plain i
      · exact hacc c hc
    unfold itoaLoop at hc
    split at hc
    · exact ih _ _ _ hcons c hc
    · exact hcons c hc

theorem itoa_plain (i wid : Nat) : ∀ c ∈ (itoa i wid).data, c ≠ '\x1b' ∧ c ≠ '\n' :=
  itoaLoop_plain 19 i wid [] (by simp)

theorem stdHeader_eq (t : GoTime) : formatHeader "" LstdFlags t =
    itoa t.year 4 ++ "/" ++ itoa t.month 2 ++ "/" ++ itoa t.day 2 ++ " " ++
      (itoa t.hour 2 ++ ":" ++ itoa t.min 2 ++ ":" ++ itoa t.sec 2 ++ " ") := by
  have h1 : LstdFlags &&& Lmsgprefix = 0 := by decide
  have h2 : LstdFlags &&& Ldate ≠ 0 := by decide
  have h3 : LstdFlags &&& Ltime ≠ 0 := by decide
  simp only [formatHeader, h1, h2, h3, if_true, if_false, ne_eq, not_true_eq_false, not_false_eq_true]
  apply String.ext
  simp

theorem stdHeader_no_nl (t : GoTime) : '\n' ∉ (formatHeader "" LstdFlags t).data := by
  rw [stdHeader_eq]
  simp only [String.data_append, List.mem_append, not_or]
  repeat' constructor
  all_goals first
    | exact fun h => (itoa_plain _ _ _ h).2 rfl
    | decide

theorem stdHeader_no_esc (t : GoTime) : '\x1b' ∉ (formatHeader "" LstdFlags t).data := by
  rw [stdHeader_eq]
  simp only [String.data_append, List.mem_append, not_or]
  repeat' constructor
  all_goals first
    | exact fun h => (itoa_plain _ _ _ h).1 rfl
    | decide

theorem levelTable_spec (h : SimpleLogHandler) (L : LogLevel) (tag colour : String)
    (hL : (L, tag, colour) ∈ levelTable) :
    (∀ text, h.AddLevelPrevix L text = tag ++ text) ∧
    (∀ text, h.AddLevelColor L text = colour ++ text ++ "\x1b[0m") ∧
    '\n' ∉ tag.data ∧ '\x1b' ∉ tag.data ∧ '\n' ∉ colour.data := by
  simp only [levelTable, List.mem_cons, Prod.mk.injEq, List.mem_singleton, List.not_mem_nil,
    or_false] at hL
  rcases hL with ⟨rfl, rfl, rfl⟩ | ⟨rfl, rfl, rfl⟩ | ⟨rfl, rfl, rfl⟩ | ⟨rfl, rfl, rfl⟩ |
    ⟨rfl, rfl, rfl⟩ | ⟨rfl, rfl, rfl⟩ | ⟨rfl, rfl, rfl⟩ | ⟨rfl, rfl, rfl⟩ <;>
  refine ⟨fun text => ?_, fun text => ?_, by decide, by decide, by decide⟩ <;>
  simp [SimpleLogHandler.AddLevelPrevix, SimpleLogHandler.AddLevelColor]

theorem getLast?_ne_of_not_mem {c : Char} {l : List Char} (h : c ∉ l) : l.getLast? ≠ some c := by
  intro hl
  exact h (List.mem_of_getLast?_eq_some hl)

theorem Output_eq (l : GoLogger) (now : GoTime) (s : String) (w : Writes) :
    ∃ nl : String, (nl = "" ∨ nl = "\n") ∧
      (s.data.getLast? ≠ some '\n' → nl = "\n") ∧
      l.Output now s w = w ++ [(l.out, formatHeader l.pfx l.flag now ++ s ++ nl)] := by
  unfold GoLogger.Output
  by_cases hs : s.data.getLast? = some '\n'
  · exact ⟨"", Or.inl rfl, fun h => absurd hs h, by simp [hs]⟩
  · exact ⟨"\n", Or.inr rfl, fun _ => rfl, by simp [hs]⟩

theorem Log_eq (h : SimpleLogHandler) (l : GoLogger) (lib : Lib) (now : GoTime)
    (level : LogLevel) (err : Option GoError) (msg : String) (args : List GoValue) (w : Writes)
    (hh : h.logger = some l) :
    ∃ nl : String, (nl = "" ∨ nl = "\n") ∧
      ((h.logText lib level err msg args).data.getLast? ≠ some '\n' → nl = "\n") ∧
      h.Log lib now level err msg args w =
        (.done, w ++ [(l.out,
          formatHeader l.pfx l.flag now ++ h.logText lib level err msg args ++ nl)]) := by
  obtain ⟨nl, h1, h2, h3⟩ := Output_eq l now (h.logText lib level err msg args) w
  refine ⟨nl, h1, h2, ?_⟩
  simp only [SimpleLogHandler.Log, hh, GoLogger.Print, h3]

theorem Log_eq_exact (h : SimpleLogHandler) (l : GoLogger) (lib : Lib) (now : GoTime)
    (level : LogLevel) (err : Option GoError) (msg : String) (args : List GoValue) (w : Writes)
    (hh : h.logger = some l) :
    h.Log lib now level err msg args w =
      (.done, w ++ [(l.out,
        formatHeader l.pfx l.flag now ++ h.logText lib level err msg args ++
          (if (h.logText lib level err msg args).data.getLast? = some '\n' then "" else "\n"))]) := by
  simp only [SimpleLogHandler.Log, hh, GoLogger.Print, GoLogger.Output]
  by_cases hs : (h.logText lib level err msg args).data.getLast? = some '\n'
  · simp [hs]
  · simp [hs]

theorem getLast?_append_reset (l : List Char) :
    (l ++ ['\x1b', '[', '0', 'm']).getLast? = some 'm' := by
  have h : (['\x1b', '[', '0', 'm'] : List Char) = ['\x1b', '[', '0'] ++ ['m'] := rfl
  rw [h, ← List.append_assoc, List.getLast?_concat]

theorem getLast?_tag_append (ctx : String) :
    ("[ERROR] " ++ ctx).data.getLast? = some '\n' ↔ ctx.data.getLast? = some '\n' := by
  rw [String.data_append]
  rcases List.eq_nil_or_concat ctx.data with hnil | ⟨l, c, hc⟩
  · rw [hnil]; decide
  · rw [hc, List.concat_eq_append, ← List.append_assoc, List.getLast?_concat,
      List.getLast?_concat]

/-- C1 (amended): for each of the eight levels `L` with tag `tag` and colour
escape `colour`, every handler whose logger is the one `Simple()` builds
(possibly redirected to `out`), and every message with no ESC and no newline
character, `Log(L, nil, msg)` completes and issues exactly one write to `out`,
made of one newline-free line and its closing newline. The line contains the
tag followed by the message; with console mode off it is the timestamp header
followed by tag and message and holds no ESC; with console mode on it is the
timestamp header followed by the colour escape, tag, message and `ESC[0m`. -/
theorem log_writes_one_line (lib : Lib) (now : GoTime) (h : SimpleLogHandler) (out : Sink)
    (L : LogLevel) (tag colour msg : String) (w : Writes)
    (hL : (L, tag, colour) ∈ levelTable)
    (hh : h.logger = some (logNew out "" LstdFlags))
    (hesc : '\x1b' ∉ msg.data) (hnl : '\n' ∉ msg.data) :
    ∃ line : String,
      h.Log lib now L none msg [] w = (.done, w ++ [(out, line ++ "\n")]) ∧
      '\n' ∉ line.data ∧
      (tag ++ msg).data <:+: line.data ∧
      (h.isConsole = false →
        line = formatHeader "" LstdFlags now ++ (tag ++ msg) ∧ '\x1b' ∉ line.data) ∧
      (h.isConsole = true →
        line = formatHeader "" LstdFlags now ++ (colour ++ (tag ++ msg) ++ "\x1b[0m")) := by
  obtain ⟨hpre, hcol, htag_nl, htag_esc, hcol_nl⟩ := levelTable_spec h L tag colour hL
  obtain ⟨nl, -, hnl2, hlog⟩ := Log_eq h _ lib now L none msg [] w hh
  have hhead_nl := stdHeader_no_nl now
  have hhead_esc := stdHeader_no_esc now
  have htext : h.logText lib L none msg [] =
      if h.isConsole then colour ++ (tag ++ msg) ++ "\x1b[0m" else tag ++ msg := by
    simp [SimpleLogHandler.logText, SimpleLogHandler.StringifyLog, hpre, hcol]
  have hreset : '\n' ∉ "\x1b[0m".data := by decide
  have htext_nl : '\n' ∉ (h.logText lib L none msg []).data := by
    rw [htext]
    split <;> simp only [String.data_append, List.mem_append, not_or] <;> tauto
  have hnl3 : nl = "\n" := hnl2 (getLast?_ne_of_not_mem htext_nl)
  refine ⟨formatHeader "" LstdFlags now ++ h.logText lib L none msg [], ?_, ?_, ?_, ?_, ?_⟩
  · rw [hlog, hnl3]; rfl
  · simp only [String.data_append, List.mem_append, not_or]
    exact ⟨hhead_nl, htext_nl⟩
  · rw [htext]
    split
    · refine ⟨(formatHeader "" LstdFlags now).data ++ colour.data, "\x1b[0m".data, ?_⟩
      simp [String.data_append, List.append_assoc]
    · exact ⟨(formatHeader "" LstdFlags now).data, [], by simp [String.data_append]⟩
  · intro hc
    rw [htext]
    simp only [hc, Bool.false_eq_true, if_false, true_and]
    simp only [String.data_append, List.mem_append, not_or]
    exact ⟨hhead_esc, htag_esc, hesc⟩
  · intro hc
    rw [htext]
    simp only [hc, if_true]

/-- The one-line property at `Simple()`, level INFO and the message `up 100%`. -/
theorem log_writes_one_line_witness :
    (INFO, "[INFO] ", "\x1b[1;34m") ∈ levelTable ∧
    Simple.logger = some (logNew Stderr "" LstdFlags) ∧
    '\x1b' ∉ "up 100%".data ∧ '\n' ∉ "up 100%".data ∧
    ∃ line : String,
      Simple.Log sampleLib sampleTime INFO none "up 100%" [] [] =
        (.done, [] ++ [(Stderr, line ++ "\n")]) ∧
      '\n' ∉ line.data ∧
      ("[INFO] " ++ "up 100%").data <:+: line.data ∧
      (Simple.isConsole = false →
        line = formatHeader "" LstdFlags sampleTime ++ ("[INFO] " ++ "up 100%") ∧
          '\x1b' ∉ line.data) ∧
      (Simple.isConsole = true →
        line = formatHeader "" LstdFlags sampleTime ++
          ("\x1b[1;34m" ++ ("[INFO] " ++ "up 100%") ++ "\x1b[0m")) :=
  ⟨by decide, rfl, by decide, by decide,
    log_writes_one_line sampleLib sampleTime Simple Stderr INFO "[INFO] " "\x1b[1;34m" "up 100%" []
      (by decide) rfl (by decide) (by decide)⟩

/-- C1 as stated fails: the message `a\nb` holds no ESC, yet the text that
`Log(ERROR, nil, "a\nb")` writes through a `Simple()` handler is not a single
newline-free line followed by a newline. -/
theorem log_multiline_message_not_one_line :
    '\x1b' ∉ "a\nb".data ∧
    Simple.Log sampleLib sampleTime ERROR none "a\nb" [] [] =
      (.done, [(Stderr, "2024/03/09 07:05:01 [ERROR] a\nb\n")]) ∧
    ¬ ∃ line : String, '\n' ∉ line.data ∧
      Simple.Log sampleLib sampleTime ERROR none "a\nb" [] [] =
        (.done, [(Stderr, line ++ "\n")]) := by
  refine ⟨by decide, by decide, ?_⟩
  rintro ⟨line, hline, heq⟩
  have hval : Simple.Log sampleLib sampleTime ERROR none "a\nb" [] [] =
      (.done, [(Stderr, "2024/03/09 07:05:01 [ERROR] a\nb\n")]) := by decide
  rw [hval] at heq
  simp only [Prod.mk.injEq, List.cons.injEq, and_true, true_and] at heq
  have hd : ("2024/03/09 07:05:01 [ERROR] a\nb\n" : String).data = line.data ++ ['\n'] := by
    rw [heq]; rfl
  have hd2 : ("2024/03/09 07:05:01 [ERROR] a\nb" : String).data ++ ['\n'] = line.data ++ ['\n'] := by
    rw [← hd]; rfl
  have hd3 := List.append_cancel_right hd2
  apply hline
  rw [← hd3]
  decide

/-- C2 (amended): through a handler whose logger is the one `Simple()` builds,
`Log(ERROR, err, ctx)` with a non-nil `err` writes the timestamp header, then
the text in which the ERROR tag and `ctx` are followed by a colon, a newline
and the detailed rendering of `err` (so whatever that rendering includes, such
as the message of `err`, is written too), that text standing inside the ERROR
colour escape and `ESC[0m` when console mode is on. With a nil error
`StringifyLog` returns `ctx`, the text handed to the logger is the ERROR tag
followed by `ctx`, inside the ERROR colour escape and `ESC[0m` when console
mode is on, and no error-detail section is appended. In both cases the line
written is the timestamp header, the text, and a closing newline that is left
out exactly when the text already ends in one: for a nil error that never
happens in console mode, and with console mode off it happens exactly when
`ctx` ends in a newline. -/
theorem error_log_text (lib : Lib) (now : GoTime) (h : SimpleLogHandler) (out : Sink)
    (ctx : String) (w : Writes) (hh : h.logger = some (logNew out "" LstdFlags)) :
    (∀ e : GoError,
      h.logText lib ERROR (some e) ctx [] =
        (if h.isConsole then
          "\x1b[91m" ++ ("[ERROR] " ++ (ctx ++ (":\n" ++ lib.details e))) ++ "\x1b[0m"
          else "[ERROR] " ++ (ctx ++ (":\n" ++ lib.details e))) ∧
      h.Log lib now ERROR (some e) ctx [] w =
        (.done, w ++ [(out,
          formatHeader "" LstdFlags now ++ h.logText lib ERROR (some e) ctx [] ++
            (if (h.logText lib ERROR (some e) ctx []).data.getLast? = some '\n'
              then "" else "\n"))]) ∧
      ∃ pre post : String,
        h.Log lib now ERROR (some e) ctx [] w =
          (.done, w ++ [(out, pre ++ (ctx ++ ":" ++ "\n" ++ lib.details e) ++ post)]) ∧
        (e.Error.data <:+: (lib.details e).data →
          e.Error.data <:+: (pre ++ (ctx ++ ":" ++ "\n" ++ lib.details e) ++ post).data)) ∧
    h.StringifyLog lib ERROR none ctx [] = ctx ∧
    h.logText lib ERROR none ctx [] =
      (if h.isConsole then "\x1b[91m" ++ ("[ERROR] " ++ ctx) ++ "\x1b[0m"
        else "[ERROR] " ++ ctx) ∧
    h.Log lib now ERROR none ctx [] w =
      (.done, w ++ [(out,
        formatHeader "" LstdFlags now ++ h.logText lib ERROR none ctx [] ++
          (if (h.logText lib ERROR none ctx []).data.getLast? = some '\n'
            then "" else "\n"))]) ∧
    (h.isConsole = true → (h.logText lib ERROR none ctx []).data.getLast? ≠ some '\n') ∧
    (h.isConsole = false →
      ((h.logText lib ERROR none ctx []).data.getLast? = some '\n' ↔
        ctx.data.getLast? = some '\n')) := by
  have hnone : h.logText lib ERROR none ctx [] =
      (if h.isConsole then "\x1b[91m" ++ ("[ERROR] " ++ ctx) ++ "\x1b[0m"
        else "[ERROR] " ++ ctx) := by
    cases hc : h.isConsole <;>
    simp [SimpleLogHandler.logText, SimpleLogHandler.StringifyLog,
      SimpleLogHandler.AddLevelPrevix, SimpleLogHandler.AddLevelColor, hc]
  refine ⟨fun e => ?_, ?_, hnone, ?_, ?_, ?_⟩
  · have hexact := Log_eq_exact h _ lib now ERROR (some e) ctx [] w hh
    have hsome : h.logText lib ERROR (some e) ctx [] =
        (if h.isConsole then
          "\x1b[91m" ++ ("[ERROR] " ++ (ctx ++ (":\n" ++ lib.details e))) ++ "\x1b[0m"
          else "[ERROR] " ++ (ctx ++ (":\n" ++ lib.details e))) := by
      cases hc : h.isConsole <;>
      simp [SimpleLogHandler.logText, SimpleLogHandler.StringifyLog,
        SimpleLogHandler.AddLevelPrevix, SimpleLogHandler.AddLevelColor, hc]
    have htext : h.logText lib ERROR (some e) ctx [] =
        (if h.isConsole then "\x1b[91m" ++ "[ERROR] " else "[ERROR] ") ++
          (ctx ++ ":" ++ "\n" ++ lib.details e) ++
          (if h.isConsole then "\x1b[0m" else "") := by
      apply String.ext
      cases hc : h.isConsole <;>
      simp [SimpleLogHandler.logText, SimpleLogHandler.StringifyLog,
        SimpleLogHandler.AddLevelPrevix, SimpleLogHandler.AddLevelColor, hc]
    refine ⟨hsome, hexact, ?_⟩
    generalize hnl : (if (h.logText lib ERROR (some e) ctx []).data.getLast? = some '\n'
      then "" else "\n") = nl at hexact
    refine ⟨formatHeader "" LstdFlags now ++
        (if h.isConsole then "\x1b[91m" ++ "[ERROR] " else "[ERROR] "),
      (if h.isConsole then "\x1b[0m" else "") ++ nl, ?_, ?_⟩
    · rw [hexact, htext]
      simp only [logNew, String.append_assoc]
    · rintro ⟨a, b, hab⟩
      refine ⟨(formatHeader "" LstdFlags now ++
          (if h.isConsole then "\x1b[91m" ++ "[ERROR] " else "[ERROR] ")).data ++
          (ctx ++ ":" ++ "\n").data ++ a,
        b ++ ((if h.isConsole then "\x1b[0m" else "") ++ nl).data, ?_⟩
      simp only [String.data_append, List.append_assoc] at hab ⊢
      simp [← hab]
  · simp [SimpleLogHandler.StringifyLog]
  · exact Log_eq_exact h _ lib now ERROR none ctx [] w hh
  · intro hc
    rw [hnone, hc]
    simp only [if_true, String.data_append]
    rw [getLast?_append_reset]
    decide
  · intro hc
    rw [hnone, hc]
    simp only [Bool.false_eq_true, if_false]
    exact getLast?_tag_append ctx

/-- The error-text property at `Simple()` and the context `ctx`. -/
theorem error_log_text_witness :
    Simple.logger = some (logNew Stderr "" LstdFlags) ∧
    ((∀ e : GoError,
      Simple.logText sampleLib ERROR (some e) "ctx" [] =
        (if Simple.isConsole then
          "\x1b[91m" ++ ("[ERROR] " ++ ("ctx" ++ (":\n" ++ sampleLib.details e))) ++ "\x1b[0m"
          else "[ERROR] " ++ ("ctx" ++ (":\n" ++ sampleLib.details e))) ∧
      Simple.Log sampleLib sampleTime ERROR (some e) "ctx" [] [] =
        (.done, [] ++ [(Stderr,
          formatHeader "" LstdFlags sampleTime ++
            Simple.logText sampleLib ERROR (some e) "ctx" [] ++
            (if (Simple.logText sampleLib ERROR (some e) "ctx" []).data.getLast? = some '\n'
              then "" else "\n"))]) ∧
      ∃ pre post : String,
        Simple.Log sampleLib sampleTime ERROR (some e) "ctx" [] [] =
          (.done, [] ++ [(Stderr, pre ++ ("ctx" ++ ":" ++ "\n" ++ sampleLib.details e) ++ post)]) ∧
        (e.Error.data <:+: (sampleLib.details e).data →
          e.Error.data <:+: (pre ++ ("ctx" ++ ":" ++ "\n" ++ sampleLib.details e) ++ post).data)) ∧
    Simple.StringifyLog sampleLib ERROR none "ctx" [] = "ctx" ∧
    Simple.logText sampleLib ERROR none "ctx" [] =
      (if Simple.isConsole then "\x1b[91m" ++ ("[ERROR] " ++ "ctx") ++ "\x1b[0m"
        else "[ERROR] " ++ "ctx") ∧
    Simple.Log sampleLib sampleTime ERROR none "ctx" [] [] =
      (.done, [] ++ [(Stderr,
        formatHeader "" LstdFlags sampleTime ++ Simple.logText sampleLib ERROR none "ctx" [] ++
          (if (Simple.logText sampleLib ERROR none "ctx" []).data.getLast? = some '\n'
            then "" else "\n"))]) ∧
    (Simple.isConsole = true →
      (Simple.logText sampleLib ERROR none "ctx" []).data.getLast? ≠ some '\n') ∧
    (Simple.isConsole = false →
      ((Simple.logText sampleLib ERROR none "ctx" []).data.getLast? = some '\n' ↔
        "ctx".data.getLast? = some '\n'))) :=
  ⟨rfl, error_log_text sampleLib sampleTime Simple Stderr "ctx" [] rfl⟩

/-- C2 as stated fails: on a console-mode handler the text written by
`Log(ERROR, nil, "ctx")` is not the ERROR tag followed by `ctx`, whatever
timestamp is allowed in front and newline behind: it carries the colour
escapes. -/
theorem error_log_console_text_coloured :
    (Simple.SetConsole true).Log sampleLib sampleTime ERROR none "ctx" [] [] =
      (.done, [(Stderr, "2024/03/09 07:05:01 \x1b[91m[ERROR] ctx\x1b[0m\n")]) ∧
    (Simple.SetConsole true).logText sampleLib ERROR none "ctx" [] ≠ "[ERROR] " ++ "ctx" ∧
    ¬ ∃ stamp nl : String,
      (Simple.SetConsole true).Log sampleLib sampleTime ERROR none "ctx" [] [] =
        (.done, [(Stderr, stamp ++ ("[ERROR] " ++ "ctx") ++ nl)]) ∧ (nl = "" ∨ nl = "\n") := by
  refine ⟨by decide, by decide, ?_⟩
  rintro ⟨stamp, nl, heq, hnl⟩
  have hval : (Simple.SetConsole true).Log sampleLib sampleTime ERROR none "ctx" [] [] =
      (.done, [(Stderr, "2024/03/09 07:05:01 \x1b[91m[ERROR] ctx\x1b[0m\n")]) := by decide
  rw [hval] at heq
  simp only [Prod.mk.injEq, List.cons.injEq, and_true, true_and] at heq
  have hd := congrArg (fun s : String => s.data.reverse) heq
  rcases hnl with rfl | rfl <;>
  · simp only [String.data_append, List.reverse_append] at hd
    revert hd
    generalize stamp.data.reverse = r
    intro hd
    simp at hd

theorem AddLevelColor_wrap (h : SimpleLogHandler) (level : LogLevel) :
    ∃ a b : String, ∀ text, h.AddLevelColor level text = a ++ text ++ b := by
  unfold SimpleLogHandler.AddLevelColor
  split_ifs
  all_goals first
    | exact ⟨_, _, fun _ => rfl⟩
    | exact ⟨"", "", fun _ => by simp⟩

/-- C3: for every level and every template `msg`, with no args and a nil error
`StringifyLog` returns `msg` unchanged, and `Log` writes a text that contains the
level tag followed by `msg` verbatim; the written text does not depend on the
formatting library at all, so no substitution is applied. -/
theorem log_no_args_verbatim (lib : Lib) (now : GoTime) (h : SimpleLogHandler) (out : Sink)
    (level : LogLevel) (msg : String) (w : Writes)
    (hh : h.logger = some (logNew out "" LstdFlags)) :
    h.StringifyLog lib level none msg [] = msg ∧
    (∃ pre post : String, h.Log lib now level none msg [] w =
      (.done, w ++ [(out, pre ++ h.AddLevelPrevix level msg ++ post)])) ∧
    (∀ L tag colour, (L, tag, colour) ∈ levelTable → h.AddLevelPrevix L msg = tag ++ msg) ∧
    (∀ lib2 : Lib, h.Log lib2 now level none msg [] w = h.Log lib now level none msg [] w) := by
  refine ⟨by simp [SimpleLogHandler.StringifyLog], ?_, ?_, ?_⟩
  · obtain ⟨nl, -, -, hlog⟩ := Log_eq h _ lib now level none msg [] w hh
    obtain ⟨a, b, hab⟩ := AddLevelColor_wrap h level
    have htext : h.logText lib level none msg [] =
        (if h.isConsole then a else "") ++ h.AddLevelPrevix level msg ++
          (if h.isConsole then b else "") := by
      cases hc : h.isConsole <;>
      simp [SimpleLogHandler.logText, SimpleLogHandler.StringifyLog, hc, hab]
    refine ⟨formatHeader "" LstdFlags now ++ (if h.isConsole then a else ""),
      (if h.isConsole then b else "") ++ nl, ?_⟩
    rw [hlog, htext]
    simp only [logNew, String.append_assoc]
  · intro L tag colour hL
    exact (levelTable_spec h L tag colour hL).1 msg
  · intro lib2
    simp [SimpleLogHandler.Log, SimpleLogHandler.logText, SimpleLogHandler.StringifyLog]

/-- The verbatim property at `Simple()`, level WARN and a template with `%`. -/
theorem log_no_args_verbatim_witness :
    Simple.logger = some (logNew Stderr "" LstdFlags) ∧
    (Simple.StringifyLog sampleLib WARN none "100%d of %" [] = "100%d of %" ∧
    (∃ pre post : String, Simple.Log sampleLib sampleTime WARN none "100%d of %" [] [] =
      (.done, [] ++ [(Stderr, pre ++ Simple.AddLevelPrevix WARN "100%d of %" ++ post)])) ∧
    (∀ L tag colour, (L, tag, colour) ∈ levelTable →
      Simple.AddLevelPrevix L "100%d of %" = tag ++ "100%d of %") ∧
    (∀ lib2 : Lib, Simple.Log lib2 sampleTime WARN none "100%d of %" [] [] =
      Simple.Log sampleLib sampleTime WARN none "100%d of %" [] [])) :=
  ⟨rfl, log_no_args_verbatim sampleLib sampleTime Simple Stderr WARN "100%d of %" [] rfl⟩

/-- C4: on a handler built by `Simple()` (possibly reconfigured since),
`SetOutput(s)` succeeds and a `Log` call made right after it issues exactly one
write, to `s`; what every other sink has received is unchanged. `SetOutput`
leaves the console flag as it was and `SetConsole` leaves the logger, hence the
sink, as it was. -/
theorem setOutput_redirects (lib : Lib) (now : GoTime) (h : SimpleLogHandler) (out s : Sink)
    (level : LogLevel) (err : Option GoError) (msg : String) (args : List GoValue)
    (w : Writes) (c : Bool) (hh : h.logger = some (logNew out "" LstdFlags)) :
    ∃ (h1 : SimpleLogHandler) (line : String),
      h.SetOutput s = .ok h1 ∧
      h1.Log lib now level err msg args w = (.done, w ++ [(s, line)]) ∧
      (∀ t : Sink, t ≠ s →
        (h1.Log lib now level err msg args w).2.filter (fun e => e.1 = t) =
          w.filter (fun e => e.1 = t)) ∧
      h1.isConsole = h.isConsole ∧
      h1.logger = some (logNew s "" LstdFlags) ∧
      (h.SetConsole c).logger = h.logger ∧
      (h.SetConsole c).isConsole = c := by
  have hset : h.SetOutput s = .ok { h with logger := some (logNew s "" LstdFlags) } := by
    simp [SimpleLogHandler.SetOutput, hh, GoLogger.SetOutput, logNew]
  obtain ⟨nl, -, -, hlog⟩ := Log_eq { h with logger := some (logNew s "" LstdFlags) }
    (logNew s "" LstdFlags) lib now level err msg args w rfl
  refine ⟨_, _, hset, hlog, ?_, rfl, rfl, rfl, rfl⟩
  intro t ht
  rw [hlog]
  simp [List.filter_append, logNew, Ne.symm ht]

/-- The redirection property at `Simple()`, redirected to sink `7`. -/
theorem setOutput_redirects_witness :
    Simple.logger = some (logNew Stderr "" LstdFlags) ∧
    ∃ (h1 : SimpleLogHandler) (line : String),
      Simple.SetOutput 7 = .ok h1 ∧
      h1.Log sampleLib sampleTime INFO none "up" [] [(Stderr, "old\n")] =
        (.done, [(Stderr, "old\n")] ++ [(7, line)]) ∧
      (∀ t : Sink, t ≠ 7 →
        (h1.Log sampleLib sampleTime INFO none "up" [] [(Stderr, "old\n")]).2.filter
            (fun e => e.1 = t) =
          [(Stderr, "old\n")].filter (fun e => e.1 = t)) ∧
      h1.isConsole = Simple.isConsole ∧
      h1.logger = some (logNew 7 "" LstdFlags) ∧
      (Simple.SetConsole true).logger = Simple.logger ∧
      (Simple.SetConsole true).isConsole = true :=
  ⟨rfl, setOutput_redirects sampleLib sampleTime Simple Stderr 7 INFO none "up" []
    [(Stderr, "old\n")] true rfl⟩

theorem consoleInit_eq (s : Pkg) :
    consoleInit s =
      { s with
        handlers := s.handlers ++ [Simple.SetConsole true]
        loggers := s.loggers ++ [some s.handlers.length]
        single := some s.loggers.length } := by
  simp [consoleInit, allocSimple, Logger.hndSetConsole]

theorem Console_done (s : Pkg) (h : s.once = true) : Console s = (s.single, s) := by
  simp [Console, h]

theorem consoleCalls_done (n : Nat) (s : Pkg) (h : s.once = true) :
    consoleCalls n s = (List.replicate n s.single, s) := by
  induction n with
  | zero => rfl
  | succ n ih => simp [consoleCalls, Console_done s h, ih, List.replicate_succ]

/-- C5: from any package state in which the once has not fired, `n + 1` calls
of `Console()` in a row all return the same `Logger` object; that object refers
to the one handler allocated by the first call, which has console mode on; the
state after all the calls is the state after the first one, so later calls
allocate nothing and change nothing. -/
theorem console_singleton (s0 : Pkg) (n : Nat) (h0 : s0.once = false) :
    (consoleCalls (n + 1) s0).1 = List.replicate (n + 1) (some s0.loggers.length) ∧
    (consoleCalls (n + 1) s0).2 = (Console s0).2 ∧
    (Console s0).2.loggers = s0.loggers ++ [some s0.handlers.length] ∧
    (Console s0).2.handlers = s0.handlers ++ [Simple.SetConsole true] ∧
    (Console s0).2.loggers[s0.loggers.length]? = some (some s0.handlers.length) ∧
    (Console s0).2.handlers[s0.handlers.length]? = some (Simple.SetConsole true) ∧
    (Simple.SetConsole true).isConsole = true ∧
    Console (Console s0).2 = ((Console s0).1, (Console s0).2) := by
  have hC : Console s0 = (some s0.loggers.length,
      { s0 with
        handlers := s0.handlers ++ [Simple.SetConsole true]
        loggers := s0.loggers ++ [some s0.handlers.length]
        single := some s0.loggers.length
        once := true }) := by
    simp [Console, h0, consoleInit_eq]
  have hrest := consoleCalls_done n (Console s0).2 (by rw [hC])
  refine ⟨?_, ?_, ?_, ?_, ?_, ?_, rfl, ?_⟩
  · simp only [consoleCalls, hrest, List.replicate_succ]
    rw [hC]
  · simp only [consoleCalls, hrest]
  · rw [hC]
  · rw [hC]
  · rw [hC]; simp
  · rw [hC]; simp
  · rw [hC]; rfl

/-- The singleton property for three calls from the initial package state. -/
theorem console_singleton_witness :
    Pkg.init.once = false ∧
    ((consoleCalls (2 + 1) Pkg.init).1 = List.replicate (2 + 1) (some Pkg.init.loggers.length) ∧
    (consoleCalls (2 + 1) Pkg.init).2 = (Console Pkg.init).2 ∧
    (Console Pkg.init).2.loggers = Pkg.init.loggers ++ [some Pkg.init.handlers.length] ∧
    (Console Pkg.init).2.handlers = Pkg.init.handlers ++ [Simple.SetConsole true] ∧
    (Console Pkg.init).2.loggers[Pkg.init.loggers.length]? =
      some (some Pkg.init.handlers.length) ∧
    (Console Pkg.init).2.handlers[Pkg.init.handlers.length]? = some (Simple.SetConsole true) ∧
    (Simple.SetConsole true).isConsole = true ∧
    Console (Console Pkg.init).2 = ((Console Pkg.init).1, (Console Pkg.init).2)) :=
  ⟨rfl, console_singleton Pkg.init 2 rfl⟩

/-- C6 (amended): for a non-nil `err` and a logger whose handler has the logger
`Simple()` builds, `Fatal(err)` is one handler call `Log(FATAL, nil, err.Error())`
with no args followed by `os.Exit(1)`: the call completes, the state at exit is
the state after that one call, the line written is the timestamp header, then
the FATAL tag followed by `err.Error()` (inside the FATAL colour escape and
`ESC[0m` when console mode is on) and at most a newline, the process exits with
status 1, and no statement sequenced after `Fatal` runs. -/
theorem fatal_logs_then_exits (lib : Lib) (now : GoTime) (l : Logger) (a : Nat)
    (h : SimpleLogHandler) (out : Sink) (e : GoError) (s : Pkg) (k : Stmt)
    (ha : l.Hnd = some a) (hs : s.handlers[a]? = some h)
    (hh : h.logger = some (logNew out "" LstdFlags)) :
    l.Fatal lib now (some e) = andThen (l.hndLog lib now FATAL none e.Error []) (osExit 1) ∧
    (l.hndLog lib now FATAL none e.Error [] s).1 = .done ∧
    l.Fatal lib now (some e) s = (.exit 1, (l.hndLog lib now FATAL none e.Error [] s).2) ∧
    (∃ nl : String, (nl = "" ∨ nl = "\n") ∧
      l.Fatal lib now (some e) s =
        (.exit 1, { s with writes := s.writes ++ [(out,
          formatHeader "" LstdFlags now ++
            (if h.isConsole then "\x1b[1;35m" ++ ("[FATAL] " ++ e.Error) ++ "\x1b[0m"
              else "[FATAL] " ++ e.Error) ++ nl)] })) ∧
    andThen (l.Fatal lib now (some e)) k s = l.Fatal lib now (some e) s := by
  obtain ⟨nl, hnl, -, hlog⟩ := Log_eq h _ lib now FATAL none e.Error [] s.writes hh
  have htext : h.logText lib FATAL none e.Error [] =
      (if h.isConsole then "\x1b[1;35m" ++ ("[FATAL] " ++ e.Error) ++ "\x1b[0m"
        else "[FATAL] " ++ e.Error) := by
    cases hc : h.isConsole <;>
    simp [SimpleLogHandler.logText, SimpleLogHandler.StringifyLog,
      SimpleLogHandler.AddLevelPrevix, SimpleLogHandler.AddLevelColor, hc]
  have hhnd : l.hndLog lib now FATAL none e.Error [] s =
      (.done, { s with writes := s.writes ++ [(out,
          formatHeader "" LstdFlags now ++
            (if h.isConsole then "\x1b[1;35m" ++ ("[FATAL] " ++ e.Error) ++ "\x1b[0m"
              else "[FATAL] " ++ e.Error) ++ nl)] }) := by
    simp only [Logger.hndLog, Logger.handler, ha, hs, hlog, htext, logNew]
  have hfatal : l.Fatal lib now (some e) s =
      (.exit 1, (l.hndLog lib now FATAL none e.Error [] s).2) := by
    simp only [Logger.Fatal, andThen, hhnd, osExit]
  refine ⟨rfl, by rw [hhnd], hfatal, ⟨nl, hnl, by rw [hfatal, hhnd]⟩, ?_⟩
  simp only [andThen, hfatal]

/-- The `Fatal` property on a freshly allocated `Simple()` handler. -/
theorem fatal_logs_then_exits_witness :
    (Logger.mk (some 0)).Hnd = some 0 ∧
    (allocSimple Pkg.init).2.handlers[0]? = some Simple ∧
    Simple.logger = some (logNew Stderr "" LstdFlags) ∧
    ((Logger.mk (some 0)).Fatal sampleLib sampleTime (some (.base "boom")) =
      andThen ((Logger.mk (some 0)).hndLog sampleLib sampleTime FATAL none
        (GoError.base "boom").Error []) (osExit 1) ∧
    ((Logger.mk (some 0)).hndLog sampleLib sampleTime FATAL none (GoError.base "boom").Error []
      (allocSimple Pkg.init).2).1 = .done ∧
    (Logger.mk (some 0)).Fatal sampleLib sampleTime (some (.base "boom"))
        (allocSimple Pkg.init).2 =
      (.exit 1, ((Logger.mk (some 0)).hndLog sampleLib sampleTime FATAL none
        (GoError.base "boom").Error [] (allocSimple Pkg.init).2).2) ∧
    (∃ nl : String, (nl = "" ∨ nl = "\n") ∧
      (Logger.mk (some 0)).Fatal sampleLib sampleTime (some (.base "boom"))
          (allocSimple Pkg.init).2 =
        (.exit 1, { (allocSimple Pkg.init).2 with
          writes := (allocSimple Pkg.init).2.writes ++ [(Stderr,
            formatHeader "" LstdFlags sampleTime ++
              (if Simple.isConsole then
                "\x1b[1;35m" ++ ("[FATAL] " ++ (GoError.base "boom").Error) ++ "\x1b[0m"
                else "[FATAL] " ++ (GoError.base "boom").Error) ++ nl)] })) ∧
    andThen ((Logger.mk (some 0)).Fatal sampleLib sampleTime (some (.base "boom")))
        ((Logger.mk (some 0)).Warn sampleLib sampleTime "after" [])
        (allocSimple Pkg.init).2 =
      (Logger.mk (some 0)).Fatal sampleLib sampleTime (some (.base "boom"))
        (allocSimple Pkg.init).2) :=
  ⟨rfl, rfl, rfl,
    fatal_logs_then_exits sampleLib sampleTime (Logger.mk (some 0)) 0 Simple Stderr
      (.base "boom") (allocSimple Pkg.init).2
      ((Logger.mk (some 0)).Warn sampleLib sampleTime "after" []) rfl rfl rfl⟩

/-- C6 as stated fails: through the logger that `Console()` returns, the line
`Fatal` writes is not the FATAL tag followed by `err.Error()`, whatever
timestamp is allowed in front and newline behind: it carries the colour
escapes. -/
theorem fatal_console_line_coloured :
    (Console Pkg.init).1 = some 0 ∧
    (Console Pkg.init).2.loggers[0]? = some (some 0) ∧
    (Logger.mk (some 0)).Fatal sampleLib sampleTime (some (.base "boom")) (Console Pkg.init).2 =
      (.exit 1, { (Console Pkg.init).2 with
        writes := [(Stderr, "2024/03/09 07:05:01 \x1b[1;35m[FATAL] boom\x1b[0m\n")] }) ∧
    ¬ ∃ stamp nl : String, (nl = "" ∨ nl = "\n") ∧
      ((Logger.mk (some 0)).Fatal sampleLib sampleTime (some (.base "boom"))
          (Console Pkg.init).2).2.writes =
        [(Stderr, stamp ++ ("[FATAL] " ++ (GoError.base "boom").Error) ++ nl)] := by
  have hval : (Logger.mk (some 0)).Fatal sampleLib sampleTime (some (.base "boom"))
      (Console Pkg.init).2 = (.exit 1, { (Console Pkg.init).2 with
        writes := [(Stderr, "2024/03/09 07:05:01 \x1b[1;35m[FATAL] boom\x1b[0m\n")] }) := by
    decide
  refine ⟨by decide, by decide, hval, ?_⟩
  rintro ⟨stamp, nl, hnl, heq⟩
  rw [hval] at heq
  simp only [List.cons.injEq, Prod.mk.injEq, and_true, true_and] at heq
  have hd := congrArg (fun s : String => s.data.reverse) heq
  rcases hnl with rfl | rfl <;>
  · simp only [String.data_append, List.reverse_append] at hd
    revert hd
    generalize stamp.data.reverse = r
    intro hd
    simp [GoError.Error] at hd

/-- C7 fails on the code: on the logger `TestSimple` builds around a zero-value
handler, `SetConsole(true)` completes, and then `Message`, `Warn`, `Info`,
`Debug`, `Emer`, `Trace` and `Error` all panic with a nil dereference, for every
message, args and error, writing nothing. -/
theorem zero_handler_logging_panics (lib : Lib) (now : GoTime) (isIncoming : Bool)
    (msg : String) (args : List GoValue) (err : Option GoError) :
    (testSimpleLogger.hndSetConsole true (newSimpleLogHandler Pkg.init).2).1 = .done ∧
    testSimpleState.handlers = [SimpleLogHandler.zero.SetConsole true] ∧
    testSimpleLogger.Message lib now isIncoming msg testSimpleState =
      (.panic .nilDereference, testSimpleState) ∧
    testSimpleLogger.Warn lib now msg args testSimpleState =
      (.panic .nilDereference, testSimpleState) ∧
    testSimpleLogger.Info lib now msg args testSimpleState =
      (.panic .nilDereference, testSimpleState) ∧
    testSimpleLogger.Debug lib now msg args testSimpleState =
      (.panic .nilDereference, testSimpleState) ∧
    testSimpleLogger.Emer lib now msg args testSimpleState =
      (.panic .nilDereference, testSimpleState) ∧
    testSimpleLogger.Trace lib now msg args testSimpleState =
      (.panic .nilDereference, testSimpleState) ∧
    testSimpleLogger.Error lib now err msg args testSimpleState =
      (.panic .nilDereference, testSimpleState) := by
  refine ⟨rfl, rfl, rfl, rfl, rfl, rfl, rfl, rfl, rfl⟩

/-- C8 fails on the code for a nil error: `Wrap(nil)` and `WrapDebug(nil, vars...)`
panic with a nil dereference, whereas the sibling `WrapReturn` returns nil for a
nil error; for a non-nil error both return a non-nil error that wraps the
original one. -/
theorem wrap_nil_panics (lib : Lib) (c : Caller) (vars : List GoValue) :
    Wrap lib c none = .error .nilDereference ∧
    WrapDebug lib c none vars = .error .nilDereference ∧
    WrapReturn lib c none = .ok none ∧
    (∀ e : GoError, ∃ r : GoError, Wrap lib c (some e) = .ok (some r) ∧ r.Unwrap = e.Unwrap) ∧
    (∀ e : GoError, ∃ r : GoError,
      WrapDebug lib c (some e) vars = .ok (some r) ∧ r.Unwrap = e.Unwrap) := by
  refine ⟨rfl, rfl, rfl, fun e => ⟨_, rfl, rfl⟩, fun e => ⟨_, rfl, rfl⟩⟩

theorem foldl_jsEntry (lib : Lib) (i : List GoValue) : ∀ w : Writes,
    i.foldl (jsEntry lib) w = w ++ i.map (fun v => (Stdout, jsLine lib v)) := by
  induction i with
  | nil => intro w; simp
  | cons v vs ih =>
    intro w
    rw [List.foldl_cons, ih]
    have hv : jsEntry lib w v = w ++ [(Stdout, jsLine lib v)] := by
      unfold jsEntry jsLine fprintlnStdout
      cases lib.marshal v <;> simp [String.intercalate, String.intercalate.go]
    rw [hv]
    simp

/-- C9 fails on the code for a value that does not serialize: `JSStdout` prints
the banner, one line per value in input order and the closing dashes, and goes
on after a failure, but the line for a failed value is `%s`, a space and then
the error text, not the error text alone. -/
theorem jsstdout_failed_value_line (lib : Lib) (c : Caller) (i : List GoValue) (w : Writes) :
    JSStdout lib c i w =
      w ++ [(Stdout, jsBanner c)] ++ i.map (fun v => (Stdout, jsLine lib v)) ++
        [(Stdout, dashes ++ "\n")] ∧
    sampleLib.marshal (.func "f") = .error "json: unsupported type: func()" ∧
    JSStdout sampleLib ⟨"main.f", "a.go", 12⟩ [.func "f", .int 3] [] =
      [(Stdout, jsBanner ⟨"main.f", "a.go", 12⟩),
       (Stdout, "%s json: unsupported type: func()\n"),
       (Stdout, "3\n"),
       (Stdout, dashes ++ "\n")] := by
  refine ⟨?_, rfl, by decide⟩
  simp only [JSStdout, foldl_jsEntry, fprintlnStdout]
  simp [String.intercalate, String.intercalate.go]

end Dulumao
